import Mathlib

/-!
Shallow embedding of the multi-server coordination core of the 3xui-shop
control plane: the server pool (`app/bot/services/server_pool.py`), the VPN
service fan-out operations (`app/bot/services/vpn.py`), and the subscription
aggregator (`app/bot/routers/subscription/aggregator_handler.py`).

`vpn.py` in the repository contains unresolved merge-conflict markers; the
embedding follows the HEAD side of each conflict, which is the revision the
rest of the repository (and the aggregated data model) uses.

Remote panels are external fallible collaborators: every remote call in the
source is wrapped in try/except.  The embedding therefore threads the outcome
of each remote call as explicit data (per-server oracles / option results)
instead of exceptions.
-/

namespace XUIShop

/-- A row of the `Server` table / a pooled server snapshot
(`app/db/models/Server`, as read by `server_pool.py`): identity, unique name,
host URL, capacity (`max_clients`), location label, liveness flag (`online`)
and the derived occupancy count (`current_clients`, the size of the loaded
`users` relationship). -/
structure Server where
  id : Nat
  name : String
  host : String
  max_clients : Nat
  location : String
  online : Bool
  current_clients : Nat
deriving Repr, DecidableEq

/-- `Connection` dataclass from `server_pool.py`: a pooled server snapshot
paired with an authenticated `AsyncApi` handle.  The handle itself performs
no computation in the model, so only the snapshot is carried. -/
structure Connection where
  server : Server
deriving Repr, DecidableEq

/-- The pool's live map `self._servers : dict[int, Connection]`, as an
association list from server id to connection. -/
abbrev PoolState := List (Nat × Connection)

/-- The database's server table, as the list of rows returned by listing
queries (row order is the listing order the queries return). -/
abbrev ServerDb := List Server

/-- `Server.get_by_id`: first row with the given id. -/
def dbGetServer (db : ServerDb) (i : Nat) : Option Server :=
  db.find? (fun s => s.id = i)

/-- `Server.update(..., online=b)` restricted to the online flag: set the
online flag of the row with the given id. -/
def dbSetOnline (db : ServerDb) (i : Nat) (b : Bool) : ServerDb :=
  db.map (fun s => if s.id = i then { s with online := b } else s)

/-- The guarded status write shared by `_add_server` and `refresh_server`:
read the row by id; write the online flag only when the row exists and its
stored flag differs (no-op writes are skipped). -/
def persistOnlineIfChanged (db : ServerDb) (i : Nat) (b : Bool) : ServerDb :=
  match dbGetServer db i with
  | some row => if row.online ≠ b then dbSetOnline db i b else db
  | none => db

/-- Lookup in the live map (`self._servers.get(server_id)`). -/
def poolLookup (st : PoolState) (i : Nat) : Option Connection :=
  (st.find? (fun p => p.1 = i)).map (·.2)

/-- Insertion into the live map (`self._servers[server.id] = conn`). -/
def poolInsert (st : PoolState) (i : Nat) (c : Connection) : PoolState :=
  (i, c) :: st.filter (fun p => p.1 ≠ i)

/-- `ServerPoolService._add_server`.  `auth i` is the outcome of
`api.login()` against server `i` during this run.  If the id is not pooled:
on successful login the server is marked online and a connection inserted;
on failure it is marked offline and no connection is inserted; either way the
online flag is persisted through the guarded conditional write. -/
def _add_server (auth : Nat → Bool) (st : PoolState) (db : ServerDb)
    (s : Server) : PoolState × ServerDb :=
  if (poolLookup st s.id).isSome then (st, db)
  else
    let ok := auth s.id
    let s' := { s with online := ok }
    let st' := if ok then poolInsert st s'.id ⟨s'⟩ else st
    (st', persistOnlineIfChanged db s.id ok)

/-- `ServerPoolService.get_connection_by_server_id`.  If the id is pooled,
the cached snapshot's mutable fields are reconciled from the database row
(the pooled `users`-derived occupancy is kept, mirroring the source's
restoration of `connection.server.users`) and the connection returned.  If
not pooled, the row is loaded from the database and `_add_server` is run;
the connection resulting from that addition (if any) is returned. -/
def get_connection_by_server_id (auth : Nat → Bool) (st : PoolState)
    (db : ServerDb) (sid : Nat) : Option Connection × PoolState × ServerDb :=
  match poolLookup st sid with
  | none =>
    match dbGetServer db sid with
    | some s =>
      let (st', db') := _add_server auth st db s
      (poolLookup st' sid, st', db')
    | none => (none, st, db)
  | some conn =>
    match dbGetServer db sid with
    | some row =>
      let changed := conn.server.name ≠ row.name ∨ conn.server.host ≠ row.host ∨
        conn.server.max_clients ≠ row.max_clients ∨
        conn.server.location ≠ row.location ∨ conn.server.online ≠ row.online
      let conn' : Connection :=
        if changed then ⟨{ row with current_clients := conn.server.current_clients }⟩
        else conn
      (some conn', poolInsert st sid conn', db)
    | none => (some conn, st, db)

/-- The online-id listing `[conn.server.id for conn in self._servers.values()
if conn.server.online]`. -/
def onlineServerIds (st : PoolState) : List Nat :=
  (st.filter (fun p => p.2.server.online)).map (fun p => p.2.server.id)

/-- The database query `select(Server).where(Server.id.in_(ids))`: rows whose
id is in the given list, in listing order. -/
def dbSelectByIds (db : ServerDb) (ids : List Nat) : List Server :=
  db.filter (fun s => s.id ∈ ids)

/-- The occupancy key order of `sorted(..., key=lambda s: s.current_clients)`. -/
abbrev occLe (a b : Server) : Prop :=
  a.current_clients ≤ b.current_clients

instance : IsTotal Server occLe := ⟨fun _ _ => Nat.le_total _ _⟩

instance : IsTrans Server occLe := ⟨fun _ _ _ => Nat.le_trans⟩

/-- Python's stable `sorted(..., key=lambda s: s.current_clients)`:
Mathlib's insertion sort with the occupancy-key relation is stable and
sorts exactly as CPython's stable sort does. -/
def sortByOccupancy (l : List Server) : List Server :=
  l.insertionSort occLe

/-- `ServerPoolService.get_available_server`: among pooled online servers,
load their rows (with occupancy) from the database, keep those with
`current_clients < max_clients`, and return the first of the stable sort by
occupancy; `none` when no server qualifies. -/
def get_available_server (st : PoolState) (db : ServerDb) : Option Server :=
  let ids := onlineServerIds st
  if ids.isEmpty then none
  else
    let withUsers := dbSelectByIds db ids
    let free := withUsers.filter (fun s => s.current_clients < s.max_clients)
    (sortByOccupancy free).head?

/-- The servers qualifying for placement: online (pooled with the online
flag set), present in the database, with free capacity. -/
def qualifyingServers (st : PoolState) (db : ServerDb) : List Server :=
  (dbSelectByIds db (onlineServerIds st)).filter
    (fun s => s.current_clients < s.max_clients)

/-! ## VPN service (`app/bot/services/vpn.py`) -/

/-- A `py3xui` client entry as used by `vpn.py`: the externally visible label
(`email`, the user's numeric identity as a string), enablement, internal id,
expiry timestamp in ms (`0` = unlimited), flow, device limit (`limit_ip`,
`0` = unlimited), external subscription id (`sub_id`), traffic quota, and the
`inbound_id` that `_find_client_on_server` attaches to a found entry. -/
structure Client where
  email : String
  enable : Bool
  id : String
  expiry_time : Int
  flow : String
  limit_ip : Int
  sub_id : String
  total_gb : Int
  inbound_id : Option Nat
deriving Repr, DecidableEq

/-- `Client(email=str(user.tg_id))`: a fresh entry carrying only the label.
The remaining `py3xui` defaults are library code outside this repository;
they are modelled as zero values, and no theorem below depends on them
(the claims proved about synthesized entries concern only `id`/`sub_id`). -/
def Client.blank (email : String) : Client :=
  ⟨email, false, "", 0, "", 0, "", 0, none⟩

/-- A per-client stat record of an inbound (`inbound.client_stats[...]`):
label, cumulative upload/download bytes, traffic quota and expiry. -/
structure ClientStat where
  email : String
  up : Nat
  down : Nat
  total : Int
  expiry_time : Int
deriving Repr, DecidableEq

/-- An inbound as listed by `api.inbound.get_list()`: its id, the client
entries of `inbound.settings.clients`, and the stat records of
`inbound.client_stats`. -/
structure InboundCfg where
  id : Nat
  clients : List Client
  client_stats : List ClientStat
deriving Repr, DecidableEq

/-- What `get_client_data` observes of one pooled server: its name, whether
the connection was obtained and marked online (`if not connection or not
connection.server.online: continue`), and the inbound listing — `none`
models a raised/failed `get_list` call (caught and skipped). -/
structure SrvData where
  name : String
  online : Bool
  inbounds : Option (List InboundCfg)
deriving Repr, DecidableEq

/-- First stat record of an inbound matching the user's label (the inner
`for stat in inbound.client_stats` loop breaks at the first match). -/
def statFor (e : String) (ib : InboundCfg) : Option ClientStat :=
  ib.client_stats.find? (fun st => st.email = e)

/-- The `limit_ip` of the first client config in an inbound matching the
user's label (the config search inside the policy-capture branch). -/
def cfgLimitFor (e : String) (ib : InboundCfg) : Option Int :=
  (ib.clients.find? (fun c => c.email = e)).map (·.limit_ip)

/-- The policy figures captured the first time a stat hit occurs: the
already-derived `max_devices`, the raw `traffic_total` (`stat.total`) and
the derived `expiry_time`. -/
structure Policy where
  max_devices : Int
  traffic_total : Int
  expiry_time : Int
deriving Repr, DecidableEq

/-- Policy capture at the first stat hit (`if max_devices is None:` branch):
`traffic_total = stat.total`; `expiry_time = -1 if stat.expiry_time == 0
else stat.expiry_time`; `max_devices` from the matching config's `limit_ip`
(`-1` when `limit_ip == 0`), or `0` when no config is found. -/
def capturePolicy (e : String) (st : ClientStat) (ib : InboundCfg) : Policy :=
  { max_devices :=
      match cfgLimitFor e ib with
      | some l => if l = 0 then -1 else l
      | none => 0
    traffic_total := st.total
    expiry_time := if st.expiry_time = 0 then -1 else st.expiry_time }

/-- One step of the per-inbound scan of `get_client_data`: on the first
matching stat of the inbound, add its up/down counters to the totals and
capture the policy if not yet captured; otherwise leave the accumulator. -/
def scanInbound (e : String) (acc : Nat × Nat × Option Policy)
    (ib : InboundCfg) : Nat × Nat × Option Policy :=
  match statFor e ib with
  | none => acc
  | some st =>
    (acc.1 + st.up, acc.2.1 + st.down,
      match acc.2.2 with
      | none => some (capturePolicy e st ib)
      | some p => some p)

/-- The per-server scan: skipped entirely when the server is offline,
unreachable, or its inbound listing failed. -/
def scanServer (e : String) (acc : Nat × Nat × Option Policy)
    (s : SrvData) : Nat × Nat × Option Policy :=
  if s.online then
    match s.inbounds with
    | some ibs => ibs.foldl (scanInbound e) acc
    | none => acc
  else acc

/-- The full accumulation pass of `get_client_data` over all servers. -/
def scanAll (e : String) (servers : List SrvData) : Nat × Nat × Option Policy :=
  servers.foldl (scanServer e) (0, 0, none)

/-- `ClientData` (`app/bot/models`), without the display string
`expiry_time_str` (pure formatting). -/
structure ClientData where
  max_devices : Int
  traffic_total : Int
  traffic_remaining : Int
  traffic_used : Nat
  traffic_up : Nat
  traffic_down : Nat
  expiry_timestamp : Int
deriving Repr, DecidableEq

/-- `VPNService.get_client_data` (the aggregated HEAD revision): return
`none` when no servers are pooled or the user's stats were found on no
server; otherwise derive the totals: quota `≤ 0` means unlimited (`-1` for
both total and remaining), else `remaining = total - used`, clamped at `0`. -/
def get_client_data (e : String) (servers : List SrvData) : Option ClientData :=
  if servers.isEmpty then none
  else
    let acc := scanAll e servers
    match acc.2.2 with
    | none => none
    | some p =>
      let used := acc.1 + acc.2.1
      let pair : Int × Int :=
        if p.traffic_total ≤ 0 then (-1, -1)
        else (p.traffic_total, max 0 (p.traffic_total - (used : Int)))
      some
        { max_devices := p.max_devices
          traffic_total := pair.1
          traffic_remaining := pair.2
          traffic_used := used
          traffic_up := acc.1
          traffic_down := acc.2.1
          expiry_timestamp := p.expiry_time }

/-- Whether the scan of `get_client_data` finds the user on a given server:
the server is scanned and some inbound has a matching stat record. -/
def foundOn (e : String) (s : SrvData) : Bool :=
  s.online &&
    match s.inbounds with
    | some ibs => ibs.any (fun ib => (statFor e ib).isSome)
    | none => false

/-- The upload bytes one inbound contributes: the first matching stat's
counter, zero when no stat matches. -/
def inboundUp (e : String) (ib : InboundCfg) : Nat :=
  match statFor e ib with
  | some st => st.up
  | none => 0

/-- The download bytes one inbound contributes. -/
def inboundDown (e : String) (ib : InboundCfg) : Nat :=
  match statFor e ib with
  | some st => st.down
  | none => 0

/-- The upload/download contribution of one server to the aggregation:
per inbound, the first matching stat's counters (zero when the server is
skipped). -/
def contribution (e : String) (s : SrvData) : Nat × Nat :=
  if s.online then
    match s.inbounds with
    | some ibs => ((ibs.map (inboundUp e)).sum, (ibs.map (inboundDown e)).sum)
    | none => (0, 0)
  else (0, 0)

/-! ## Fan-out (`VPNService._perform_action_on_all_servers`)

Each server's behaviour during one fan-out pass is threaded as explicit
data: whether a connection was obtained, what `_find_client_on_server`
returned (`none` covers both "not found" and "listing raised", which the
source treats identically), the first inbound id (`get_inbound_id`, `none`
when the listing failed or was empty), and the outcomes of the remote
add/update/delete calls (each individually try/caught in the source). -/

structure SrvOp where
  serverId : Nat
  conn : Bool
  found : Option Client
  inboundId : Option Nat
  addOk : Bool
  updateOk : Bool
  deleteOk : Bool
deriving Repr, DecidableEq

/-- Whether the `'create'` arm of the fan-out loop counts a success on one
server: with a connection, either the entry already exists and the forced
update succeeds, or the first inbound id resolves and the add succeeds
(a missing inbound id raises, caught by the per-server handler). -/
def createStep (s : SrvOp) : Bool :=
  s.conn &&
    match s.found with
    | some _ => s.updateOk
    | none => match s.inboundId with
      | some _ => s.addOk
      | none => false

/-- Whether the `'delete'` arm counts a success on one server: with a
connection, either the entry is absent (already satisfied, counted as
success), or it is present with a truthy `inbound_id` and the delete call
succeeds (`if not client_exists.inbound_id: raise`, so a missing or zero
inbound id raises). -/
def deleteStep (s : SrvOp) : Bool :=
  s.conn &&
    match s.found with
    | some c =>
      (match c.inbound_id with
       | some i => decide (i ≠ 0)
       | none => false) && s.deleteOk
    | none => true

/-- The `first_success_server_id` update of the fan-out loop.  The source
guards with Python truthiness (`if not first_success_server_id:`), so a
recorded id of `0` would be overwritten by a later success. -/
def pyFirst (acc : Option Nat) (sid : Nat) : Option Nat :=
  match acc with
  | none => some sid
  | some v => if v = 0 then some sid else acc

/-- `_perform_action_on_all_servers` outcome accounting for one action arm:
the number of successful servers and the recorded first-success id. -/
def fanout (step : SrvOp → Bool) (srvs : List SrvOp) : Nat × Option Nat :=
  srvs.foldl
    (fun acc s => if step s then (acc.1 + 1, pyFirst acc.2 s.serverId) else acc)
    (0, none)

/-- A row of the `User` table as touched by `vpn.py`: identity, optional
primary server assignment, and the non-null subscription id `vpn_id`. -/
structure DbUser where
  tg_id : Nat
  server_id : Option Nat
  vpn_id : String
deriving Repr, DecidableEq

/-- The user table. -/
abbrev UserDb := List DbUser

/-- `User.get(session, tg_id=...)`. -/
def dbGetUser (db : UserDb) (t : Nat) : Option DbUser :=
  db.find? (fun u => u.tg_id = t)

/-- The upsert at the end of `create_client`: update the existing row's
`server_id`/`vpn_id`, or create the row. -/
def upsertUser (db : UserDb) (t : Nat) (sid : Nat) (vid : String) : UserDb :=
  match dbGetUser db t with
  | some _ => db.map (fun u => if u.tg_id = t then { u with server_id := some sid, vpn_id := vid } else u)
  | none => db ++ [⟨t, some sid, vid⟩]

/-- `VPNService.create_client`.  `reResolve sid` models the post-create
re-query on server `sid` (`get_connection_by_server_id` followed by
`_find_client_on_server`); `none` covers a lost connection, a failed
listing, or the created entry not being found.  On at least one fan-out
success the user row is upserted with the first successful server and the
re-resolved entry's `sub_id`; when the re-query fails the operation returns
`none` without touching the database; on zero successes it returns `none`. -/
def create_client (srvs : List SrvOp) (reResolve : Nat → Option Client)
    (db : UserDb) (tg : Nat) : Option DbUser × UserDb :=
  let r := fanout createStep srvs
  if r.1 > 0 then
    match r.2 with
    | none => (none, db)
    | some fid =>
      match reResolve fid with
      | none => (none, db)
      | some created =>
        let db' := upsertUser db tg fid created.sub_id
        (dbGetUser db' tg, db')
  else (none, db)

/-- `VPNService.delete_client`: fan a delete out; when at least one server
succeeded, clear the user's `server_id` and replace `vpn_id` with the
freshly generated uuid (`vpn_id` is NOT NULL, so it cannot be cleared);
on zero successes leave the database untouched and report failure. -/
def delete_client (srvs : List SrvOp) (db : UserDb) (tg : Nat)
    (newVpnId : String) : Bool × UserDb :=
  let succ := (fanout deleteStep srvs).1
  if succ > 0 then
    (true, db.map (fun u =>
      if u.tg_id = tg then { u with server_id := none, vpn_id := newVpnId } else u))
  else (false, db)

/-! ## `VPNService.update_client` -/

/-- The keyword arguments `update_client` accepts. -/
structure UpdateKwargs where
  devices : Option Int
  duration : Option Int
  replace_duration : Bool
  enable : Option Bool
deriving Repr, DecidableEq

/-- Modelled from the spec: `add_days_to_timestamp` from
`app/bot/utils/time` (not under `src/`) extends a millisecond timestamp by
a number of days.  The claims proved below do not depend on this formula. -/
def add_days_to_timestamp (ts : Int) (days : Int) : Int :=
  ts + days * 86400000

/-- The mutation closure `update_payload_func` built inside `update_client`
(`now` is `get_current_timestamp()`): set `limit_ip` when `devices` is
given (clamping negatives to `0`); for `duration = 0` clear the expiry,
for `duration > 0` extend from `now` (when `replace_duration`) or from
`max(current expiry, now)`; set `enable` when given; finally force both
`id` and `sub_id` to the user's stored `vpn_id`. -/
def update_payload_func (vpnId : String) (now : Int) (kw : UpdateKwargs)
    (c : Client) : Client :=
  let c :=
    match kw.devices with
    | some d => { c with limit_ip := if d ≥ 0 then d else 0 }
    | none => c
  let c :=
    match kw.duration with
    | some dur =>
      if dur = 0 then { c with expiry_time := 0 }
      else if dur > 0 then
        let base := if c.expiry_time > 0 then c.expiry_time else now
        let use := if kw.replace_duration then now else max base now
        { c with expiry_time := add_days_to_timestamp use dur }
      else c
    | none => c
  let c :=
    match kw.enable with
    | some en => { c with enable := en }
    | none => c
  { c with id := vpnId, sub_id := vpnId }

/-- An entry pushed to a remote panel during the `'update'` fan-out:
either an update of an existing entry (keyed by its `sub_id`) or a creation
on an inbound. -/
inductive PushedOp
  | pushUpdate (targetUuid : String) (payload : Client)
  | pushAdd (inboundId : Nat) (payload : Client)
deriving Repr, DecidableEq

/-- The payload carried by a pushed operation. -/
def PushedOp.payload : PushedOp → Client
  | .pushUpdate _ p => p
  | .pushAdd _ p => p

/-- What the `'update'` arm pushes to one server: apply the closure to the
found entry and push an update, or synthesize a fresh entry from the
closure applied to `Client(email=str(user.tg_id))`, re-set its `id` and
`sub_id` from the user, and push a creation; nothing is pushed when the
connection or the inbound id is missing. -/
def updateStepPushes (vpnId : String) (now : Int) (kw : UpdateKwargs)
    (tg : Nat) (s : SrvOp) : List PushedOp :=
  if s.conn then
    match s.found with
    | some c => [.pushUpdate c.sub_id (update_payload_func vpnId now kw c)]
    | none =>
      match s.inboundId with
      | some ib =>
        let cs := update_payload_func vpnId now kw (Client.blank (toString tg))
        let cs := { cs with id := vpnId, sub_id := vpnId }
        [.pushAdd ib cs]
      | none => []
  else []

/-- All entries pushed during one `update_client` fan-out, in server order. -/
def update_client_pushes (vpnId : String) (now : Int) (kw : UpdateKwargs)
    (tg : Nat) (srvs : List SrvOp) : List PushedOp :=
  srvs.flatMap (updateStepPushes vpnId now kw tg)

/-! ## `VPNService.activate_promocode` -/

/-- A promocode's activation state. -/
structure PromoState where
  activated : Bool
deriving Repr, DecidableEq

/-- Modelled from the spec: `Promocode.set_activated` (`app/db/models`, not
under `src/`) marks the promocode activated in the database, succeeding only
when it was not yet activated (the optimistic lock against double
redemption). -/
def set_activated (st : PromoState) : Bool × PromoState :=
  if st.activated then (false, st) else (true, { st with activated := true })

/-- Modelled from the spec: `Promocode.set_deactivated` rolls the
activation back to unactivated. -/
def set_deactivated (st : PromoState) : PromoState :=
  { st with activated := false }

/-- The observable outcome of one `activate_promocode` run: the returned
boolean, the final promocode state, whether the bonus was granted, whether
provisioning (`process_bonus_days`) was attempted at all, and — when it
was — the activation flag at the moment it ran. -/
structure PromoRun where
  result : Bool
  final : PromoState
  granted : Bool
  provisionAttempted : Bool
  activatedAtProvision : Option Bool
deriving Repr, DecidableEq

/-- `VPNService.activate_promocode`: mark the promocode activated first;
when that fails (already activated) return failure at once; otherwise run
the create-or-extend provisioning (`process_bonus_days`, whose outcome for
this run is `bonusOk`); on provisioning failure roll the activation back
and return failure. -/
def activate_promocode (st : PromoState) (bonusOk : Bool) : PromoRun :=
  let r := set_activated st
  if !r.1 then ⟨false, r.2, false, false, none⟩
  else if bonusOk then ⟨true, r.2, true, true, some r.2.activated⟩
  else ⟨false, set_deactivated r.2, false, true, some r.2.activated⟩

/-! ## Subscription aggregator
(`app/bot/routers/subscription/aggregator_handler.py`)

String primitives are modelled directly on character lists so that the
handler's line surgery is fully executable and provable.  All separators the
handler splits on (`#`, `?`, `&`, newline) are single characters. -/

/-- Python `str.split(c)`: split at every occurrence of the character. -/
def splitChar (c : Char) (s : String) : List String :=
  (go s.data []).map (fun l => ⟨l⟩)
where
  /-- Accumulates the current chunk in reverse. -/
  go : List Char → List Char → List (List Char)
    | [], acc => [acc.reverse]
    | d :: ds, acc => if d = c then acc.reverse :: go ds [] else go ds (d :: acc)

/-- Python `str.strip()`: drop leading and trailing whitespace. -/
def pyStrip (s : String) : String :=
  ⟨((s.data.dropWhile Char.isWhitespace).reverse.dropWhile Char.isWhitespace).reverse⟩

/-- Python `str.startswith(p)`. -/
def pyStartsWith (p s : String) : Bool :=
  p.data.isPrefixOf s.data

/-- Python `line.rsplit('#', 1)[0]`: everything before the last `#`, the
whole string when there is none. -/
def stripFragmentTag (line : String) : String :=
  let parts := splitChar '#' line
  if parts.length ≤ 1 then line else String.intercalate "#" parts.dropLast

/-- Python `base_line.split('?', 1)`: the part before the first `?` and,
when present, everything after it. -/
def splitQueryOnce (s : String) : String × Option String :=
  match splitChar '?' s with
  | [] => (s, none)
  | [x] => (x, none)
  | x :: rest => (x, some (String.intercalate "?" rest))

/-- The re-tagging of one non-empty config line with the originating
server's name (`new_name`).  For `vless://`/`trojan://` lines the fragment
is stripped, the query parameters are filtered of existing insecure flags,
the three insecure flags are appended, and the server name is attached as
the fragment.  Other lines fall back to stripping the fragment and
attaching the name.  The source additionally rewrites `vmess://` lines
through a base64/JSON round-trip whose own failure handler is exactly this
fallback; the JSON-success path is not modelled, and every theorem below
about tagging excludes `vmess://` lines by hypothesis. -/
def processLine (name : String) (line : String) : String :=
  if pyStartsWith "vless://" line || pyStartsWith "trojan://" line then
    let base := stripFragmentTag line
    let q := splitQueryOnce base
    let params :=
      match q.2 with
      | some qs => (splitChar '&' qs).filter (fun p => p ≠ "")
      | none => []
    let params := params.filter (fun p =>
      !pyStartsWith "allowInsecure=" p && !pyStartsWith "allow_insecure=" p &&
        !pyStartsWith "skip-cert-verify=" p)
    let params := params ++ ["allowInsecure=true", "allow_insecure=true", "skip-cert-verify=true"]
    q.1 ++ "?" ++ String.intercalate "&" params ++ "#" ++ name
  else
    stripFragmentTag line ++ "#" ++ name

/-- The lines one surviving server contributes: split the decoded payload
into lines, strip each, drop empties, and re-tag each with the server's
name.  (The source also strips the payload as a whole before splitting;
after per-line stripping and empty-line filtering that outer strip changes
nothing and is omitted here.  `splitlines` is modelled as splitting at
newline characters.) -/
def serverLines (name : String) (content : String) : List String :=
  (((splitChar '\n' content).map pyStrip).filter (fun l => l ≠ "")).map
    (processLine name)

/-- What one concurrent fetch of a server's subscription payload produced:
a transport failure (a raised exception gathered by `asyncio.gather`), or
an HTTP response with its status and body text.  The body is carried as the
decoded text: the source base64-decodes bodies that decode and keeps the
raw text otherwise, so transport-level base64 composes to the identity and
is modelled away.  An empty string models the empty body the source skips
(`if not content_bytes: continue`). -/
inductive FetchOutcome
  | failed
  | resp (status : Nat) (content : String)
deriving Repr, DecidableEq

/-- One step of the collection loop: a failed fetch contributes nothing; a
response contributes its `serverLines` only when its status is 200 and its
body non-empty. -/
def collectStep (acc : List String) (nr : String × FetchOutcome) : List String :=
  match nr.2 with
  | .failed => acc
  | .resp st body =>
    if st = 200 ∧ body ≠ "" then acc ++ serverLines nr.1 body else acc

/-- The collection loop over `(server name, fetch outcome)` pairs: only 200
responses with a non-empty body contribute, each through `serverLines`. -/
def collectConfigs (rs : List (String × FetchOutcome)) : List String :=
  rs.foldl collectStep []

/-- The aggregated response: its HTTP status and the config lines of the
decoded body (the source joins the lines with newlines and base64-encodes
the bundle; base64 is invertible, so the decoded view is carried). -/
structure AggResponse where
  status : Nat
  lines : List String
deriving Repr, DecidableEq

/-- The tail of `get_aggregated_subscription` once the fetches resolved:
HTTP 500 when no server yielded any usable line, HTTP 200 with the joined
bundle otherwise. -/
def aggregateResults (rs : List (String × FetchOutcome)) : AggResponse :=
  let cfgs := collectConfigs rs
  if cfgs = [] then ⟨500, []⟩ else ⟨200, cfgs⟩

/-! ## Subscription URL rebuilding
(the fetch-URL construction inside `get_aggregated_subscription`) -/

/-- Python `str.lower()` on hostnames (ASCII lowering of each character,
as `urlsplit().hostname` performs). -/
def pyLower (s : String) : String :=
  ⟨s.data.map Char.toLower⟩

/-- The components `urllib.parse.urlsplit` exposes for the stored host
values this repository uses (absolute URLs carrying a scheme): scheme,
hostname (lowercased), port text, path, query and fragment. -/
structure UrlParts where
  scheme : String
  hostname : String
  port : String
  path : String
  query : String
  fragment : String
deriving Repr, DecidableEq

/-- `urllib.parse.urlsplit` on an absolute URL `scheme://netloc...`: the
scheme is everything before the first `:`; the netloc runs to the first of
`/`, `?` or `#`; the path to the first of `?` or `#`; the query to the
first `#`; the hostname is the part of the netloc before its first `:`
(no userinfo or bracketed hosts in this fleet's host values), lowercased,
and the port the remainder.  Inputs not of the form `scheme://...` parse
to empty parts (the fleet's stored hosts always carry a scheme). -/
def urlsplitModel (s : String) : UrlParts :=
  let sch := s.data.takeWhile (fun c => c ≠ ':')
  match s.data.drop sch.length with
  | c1 :: c2 :: c3 :: rest =>
    if c1 = ':' ∧ c2 = '/' ∧ c3 = '/' then
      let netloc := rest.takeWhile (fun c => c ≠ '/' ∧ c ≠ '?' ∧ c ≠ '#')
      let afterNetloc := rest.drop netloc.length
      let path := afterNetloc.takeWhile (fun c => c ≠ '?' ∧ c ≠ '#')
      let afterPath := afterNetloc.drop path.length
      let query :=
        match afterPath with
        | c :: qs => if c = '?' then qs.takeWhile (fun c => c ≠ '#') else []
        | _ => []
      let fragment := (afterPath.dropWhile (fun c => c ≠ '#')).drop 1
      let hostname := netloc.takeWhile (fun c => c ≠ ':')
      let port := (netloc.drop hostname.length).drop 1
      ⟨⟨sch⟩, pyLower ⟨hostname⟩, ⟨port⟩, ⟨path⟩, ⟨query⟩, ⟨fragment⟩⟩
    else ⟨"", "", "", "", "", ""⟩
  | _ => ⟨"", "", "", "", "", ""⟩

/-- The fetch-URL construction: split the stored host, force the network
location to `hostname:2096` and the path to `/sub/{vpn_id}`, and reassemble
with empty query and fragment (`urlunsplit` with a netloc present and empty
query/fragment concatenates `scheme://netloc` and the path). -/
def buildSubUrl (host : String) (vpnId : String) : String :=
  let p := urlsplitModel host
  p.scheme ++ "://" ++ (p.hostname ++ ":2096") ++ ("/sub/" ++ vpnId)

/-! ## Concrete fixtures for witnesses -/

/-- A concrete server used by witness instantiations. -/
def wServerA : Server := ⟨1, "a", "http://a", 5, "eu", true, 3⟩

/-- A concrete server used by witness instantiations. -/
def wServerB : Server := ⟨2, "b", "http://b", 5, "eu", true, 1⟩

/-- A concrete server used by witness instantiations. -/
def wServerC : Server := ⟨3, "c", "http://c", 2, "eu", true, 2⟩

/-- A concrete pool used by witness instantiations. -/
def wPool : PoolState := [(1, ⟨wServerA⟩), (2, ⟨wServerB⟩), (3, ⟨wServerC⟩)]

/-- The concrete server table matching `wPool`. -/
def wDb : ServerDb := [wServerA, wServerB, wServerC]

/-- A concrete server whose authentication fails in witness runs. -/
def wOffline : Server := ⟨9, "w", "http://w", 5, "eu", true, 0⟩

/-! ## Helper lemmas -/

theorem dbGetServer_map_update (db : ServerDb) (i : Nat) (f : Server → Server)
    (hf : ∀ s, (f s).id = s.id) :
    dbGetServer (db.map (fun s => if s.id = i then f s else s)) i
      = (dbGetServer db i).map f := by
  induction db with
  | nil => rfl
  | cons hd tl ih =>
    simp only [List.map_cons, dbGetServer] at *
    by_cases h : hd.id = i
    · rw [if_pos h, List.find?_cons_of_pos _ (by simp [hf, h]),
        List.find?_cons_of_pos _ (by simp [h])]
      rfl
    · rw [if_neg h, List.find?_cons_of_neg _ (by simp [h]),
        List.find?_cons_of_neg _ (by simp [h])]
      exact ih

theorem dbGetServer_persistOnline (db : ServerDb) (i : Nat) (b : Bool) :
    dbGetServer (persistOnlineIfChanged db i b) i
      = (dbGetServer db i).map (fun r => { r with online := b }) := by
  unfold persistOnlineIfChanged
  cases hrow : dbGetServer db i with
  | none => exact hrow
  | some row =>
    dsimp only
    by_cases hb : row.online ≠ b
    · rw [if_pos hb]
      have hset : dbSetOnline db i b
          = db.map (fun s => if s.id = i then { s with online := b } else s) := rfl
      rw [hset, dbGetServer_map_update db i (fun s => { s with online := b }) (fun _ => rfl), hrow]
    · rw [if_neg hb]
      push_neg at hb
      rw [hrow]
      cases row
      simp_all

theorem dbGetUser_map_update (db : UserDb) (t : Nat) (f : DbUser → DbUser)
    (hf : ∀ u, (f u).tg_id = u.tg_id) :
    dbGetUser (db.map (fun u => if u.tg_id = t then f u else u)) t
      = (dbGetUser db t).map f := by
  induction db with
  | nil => rfl
  | cons hd tl ih =>
    simp only [List.map_cons, dbGetUser] at *
    by_cases h : hd.tg_id = t
    · rw [if_pos h, List.find?_cons_of_pos _ (by simp [hf, h]),
        List.find?_cons_of_pos _ (by simp [h])]
      rfl
    · rw [if_neg h, List.find?_cons_of_neg _ (by simp [h]),
        List.find?_cons_of_neg _ (by simp [h])]
      exact ih

theorem mem_sortByOccupancy {s : Server} {l : List Server} :
    s ∈ sortByOccupancy l ↔ s ∈ l :=
  (List.perm_insertionSort occLe l).mem_iff

theorem head?_sortByOccupancy_min {l : List Server} {s : Server}
    (h : (sortByOccupancy l).head? = some s) :
    ∀ t ∈ l, s.current_clients ≤ t.current_clients := by
  intro t ht
  have hsorted : List.Sorted occLe (sortByOccupancy l) :=
    List.sorted_insertionSort occLe l
  have ht' : t ∈ sortByOccupancy l := mem_sortByOccupancy.mpr ht
  cases hsort : sortByOccupancy l with
  | nil => rw [hsort] at h; cases h
  | cons x rest =>
    rw [hsort] at h ht' hsorted
    rw [List.head?_cons] at h
    injection h with h
    subst h
    rcases List.mem_cons.mp ht' with rfl | ht''
    · exact Nat.le_refl _
    · exact (List.sorted_cons.mp hsorted).1 t ht''

/-! ## C1 -/

/-- C1: for a server whose authentication fails during `add`, the server
stays tracked — its database row is present with the online flag false, it
is not evicted — no connection is inserted into the live map, and an
immediately following `getConnectionById(S.id)` returns no usable
connection handle. -/
theorem _add_server_auth_failure_not_pooled (auth : Nat → Bool) (st : PoolState)
    (db : ServerDb) (s : Server)
    (hauth : auth s.id = false) (hpool : poolLookup st s.id = none) :
    _add_server auth st db s = (st, persistOnlineIfChanged db s.id false) := by
  unfold _add_server
  rw [hpool]
  simp [hauth]

theorem get_connection_by_server_id_not_pooled {auth : Nat → Bool}
    {st : PoolState} {db : ServerDb} {sid : Nat} {r : Server}
    (hpool : poolLookup st sid = none) (hdb : dbGetServer db sid = some r) :
    (get_connection_by_server_id auth st db sid).1
      = poolLookup (_add_server auth st db r).1 sid := by
  unfold get_connection_by_server_id
  rw [hpool, hdb]

theorem add_auth_failure_keeps_tracking_and_yields_no_handle
    (auth : Nat → Bool) (st : PoolState) (db : ServerDb) (s row : Server)
    (hauth : auth s.id = false)
    (hpool : poolLookup st s.id = none)
    (hdb : dbGetServer db s.id = some row) :
    dbGetServer (_add_server auth st db s).2 s.id = some { row with online := false } ∧
    poolLookup (_add_server auth st db s).1 s.id = none ∧
    (get_connection_by_server_id auth (_add_server auth st db s).1
        (_add_server auth st db s).2 s.id).1 = none := by
  have hrowid : row.id = s.id := by
    have := List.find?_some hdb
    simpa using this
  have hadd := _add_server_auth_failure_not_pooled auth st db s hauth hpool
  have hdb' : dbGetServer (_add_server auth st db s).2 s.id
      = some { row with online := false } := by
    rw [hadd, dbGetServer_persistOnline, hdb]
    rfl
  refine ⟨hdb', ?_, ?_⟩
  · rw [hadd]; exact hpool
  · rw [hadd] at hdb' ⊢
    rw [get_connection_by_server_id_not_pooled hpool hdb']
    have hauth' : auth ({ row with online := false } : Server).id = false := by
      rw [show ({ row with online := false } : Server).id = s.id from hrowid]
      exact hauth
    have hpool' : poolLookup st ({ row with online := false } : Server).id = none := by
      rw [show ({ row with online := false } : Server).id = s.id from hrowid]
      exact hpool
    rw [_add_server_auth_failure_not_pooled auth st _ _ hauth' hpool']
    exact hpool

/-! ## C4 -/

/-- C4: `getAvailableServer` never returns a server whose occupancy has
reached capacity; any returned server is one of the qualifying online
servers and has minimal occupancy among them; the result is absent exactly
when no server qualifies; and the embedding is a pure function of the pool
and database state, so repeated calls on the same state return the same
server (deterministic tie-break). -/
theorem get_available_server_spec (st : PoolState) (db : ServerDb) :
    (∀ s, get_available_server st db = some s →
      s.current_clients < s.max_clients ∧
      s ∈ qualifyingServers st db ∧
      ∀ t ∈ qualifyingServers st db, s.current_clients ≤ t.current_clients) ∧
    (get_available_server st db = none ↔ qualifyingServers st db = []) ∧
    get_available_server st db = get_available_server st db := by
  have hq : qualifyingServers st db
      = (dbSelectByIds db (onlineServerIds st)).filter
          (fun s => s.current_clients < s.max_clients) := rfl
  by_cases hids : (onlineServerIds st).isEmpty
  · have hnone : get_available_server st db = none := by
      unfold get_available_server
      simp [hids]
    have hempty : qualifyingServers st db = [] := by
      rw [hq]
      have hsel : dbSelectByIds db (onlineServerIds st) = [] := by
        unfold dbSelectByIds
        rw [List.isEmpty_iff.mp hids]
        simp
      rw [hsel]
      simp
    refine ⟨?_, ?_, rfl⟩
    · intro s hs; rw [hnone] at hs; cases hs
    · simp [hnone, hempty]
  · have hgas : get_available_server st db
        = (sortByOccupancy (qualifyingServers st db)).head? := by
      unfold get_available_server
      simp [hids, hq]
    refine ⟨?_, ?_, rfl⟩
    · intro s hs
      rw [hgas] at hs
      have hmem : s ∈ sortByOccupancy (qualifyingServers st db) := by
        cases hsort : sortByOccupancy (qualifyingServers st db) with
        | nil => rw [hsort] at hs; cases hs
        | cons x rest =>
          rw [hsort] at hs
          rw [List.head?_cons] at hs
          injection hs with hs
          rw [← hs]
          exact List.mem_cons_self _ _
      have hmemq : s ∈ qualifyingServers st db := mem_sortByOccupancy.mp hmem
      have hcap : s.current_clients < s.max_clients := by
        rw [hq] at hmemq
        exact of_decide_eq_true (List.mem_filter.mp hmemq).2
      exact ⟨hcap, hmemq, head?_sortByOccupancy_min hs⟩
    · rw [hgas]
      constructor
      · intro h
        have h0 : sortByOccupancy (qualifyingServers st db) = [] :=
          List.head?_eq_none_iff.mp h
        have hperm : List.Perm (sortByOccupancy (qualifyingServers st db))
            (qualifyingServers st db) :=
          List.perm_insertionSort occLe (qualifyingServers st db)
        rw [h0] at hperm
        exact hperm.nil_eq.symm
      · intro h
        rw [h]
        rfl

/-- Witness for C1: a concrete failing-authentication run. -/
theorem add_auth_failure_keeps_tracking_and_yields_no_handle_witness :
    dbGetServer (_add_server (fun _ => false) [] [wOffline] wOffline).2 wOffline.id
        = some { wOffline with online := false } ∧
    poolLookup (_add_server (fun _ => false) [] [wOffline] wOffline).1 wOffline.id = none ∧
    (get_connection_by_server_id (fun _ => false)
        (_add_server (fun _ => false) [] [wOffline] wOffline).1
        (_add_server (fun _ => false) [] [wOffline] wOffline).2 wOffline.id).1 = none :=
  add_auth_failure_keeps_tracking_and_yields_no_handle
    (fun _ => false) [] [wOffline] wOffline wOffline rfl rfl (by decide)

/-- Witness for C4: on the concrete pool, the least-occupied free server is
returned and is minimal among the qualifying servers. -/
theorem get_available_server_spec_witness :
    get_available_server wPool wDb = some wServerB ∧
    wServerB.current_clients < wServerB.max_clients ∧
    ∀ t ∈ qualifyingServers wPool wDb,
      wServerB.current_clients ≤ t.current_clients := by
  have h := get_available_server_spec wPool wDb
  have hsome : get_available_server wPool wDb = some wServerB := by decide
  exact ⟨hsome, (h.1 wServerB hsome).1, (h.1 wServerB hsome).2.2⟩

/-! ## Aggregation lemmas (C3, C7) -/

theorem scanInbound_up (e : String) (acc : Nat × Nat × Option Policy)
    (ib : InboundCfg) : (scanInbound e acc ib).1 = acc.1 + inboundUp e ib := by
  unfold scanInbound inboundUp
  cases statFor e ib <;> simp

theorem scanInbound_down (e : String) (acc : Nat × Nat × Option Policy)
    (ib : InboundCfg) : (scanInbound e acc ib).2.1 = acc.2.1 + inboundDown e ib := by
  unfold scanInbound inboundDown
  cases statFor e ib <;> simp

theorem scanInbound_policy (e : String) (acc : Nat × Nat × Option Policy)
    (ib : InboundCfg) :
    (scanInbound e acc ib).2.2.isSome
      = (acc.2.2.isSome || (statFor e ib).isSome) := by
  unfold scanInbound
  cases statFor e ib with
  | none => simp
  | some st => cases acc.2.2 <;> simp

theorem foldIb_up (e : String) (ibs : List InboundCfg) :
    ∀ acc : Nat × Nat × Option Policy,
      (ibs.foldl (scanInbound e) acc).1 = acc.1 + (ibs.map (inboundUp e)).sum := by
  induction ibs with
  | nil => intro acc; simp
  | cons ib tl ih =>
    intro acc
    simp only [List.foldl_cons, List.map_cons, List.sum_cons]
    rw [ih, scanInbound_up]
    omega

theorem foldIb_down (e : String) (ibs : List InboundCfg) :
    ∀ acc : Nat × Nat × Option Policy,
      (ibs.foldl (scanInbound e) acc).2.1
        = acc.2.1 + (ibs.map (inboundDown e)).sum := by
  induction ibs with
  | nil => intro acc; simp
  | cons ib tl ih =>
    intro acc
    simp only [List.foldl_cons, List.map_cons, List.sum_cons]
    rw [ih, scanInbound_down]
    omega

theorem foldIb_policy (e : String) (ibs : List InboundCfg) :
    ∀ acc : Nat × Nat × Option Policy,
      (ibs.foldl (scanInbound e) acc).2.2.isSome
        = (acc.2.2.isSome || ibs.any (fun ib => (statFor e ib).isSome)) := by
  induction ibs with
  | nil => intro acc; simp
  | cons ib tl ih =>
    intro acc
    simp only [List.foldl_cons, List.any_cons]
    rw [ih, scanInbound_policy, Bool.or_assoc]

theorem scanServer_up (e : String) (acc : Nat × Nat × Option Policy)
    (s : SrvData) : (scanServer e acc s).1 = acc.1 + (contribution e s).1 := by
  unfold scanServer contribution
  cases hs : s.online with
  | false => simp
  | true =>
    simp only [if_true]
    cases s.inbounds with
    | none => simp
    | some ibs => rw [foldIb_up]

theorem scanServer_down (e : String) (acc : Nat × Nat × Option Policy)
    (s : SrvData) : (scanServer e acc s).2.1 = acc.2.1 + (contribution e s).2 := by
  unfold scanServer contribution
  cases hs : s.online with
  | false => simp
  | true =>
    simp only [if_true]
    cases s.inbounds with
    | none => simp
    | some ibs => rw [foldIb_down]

theorem scanServer_policy (e : String) (acc : Nat × Nat × Option Policy)
    (s : SrvData) :
    (scanServer e acc s).2.2.isSome = (acc.2.2.isSome || foundOn e s) := by
  unfold scanServer foundOn
  cases hs : s.online with
  | false => simp
  | true =>
    simp only [if_true]
    cases s.inbounds with
    | none => simp
    | some ibs => rw [foldIb_policy]; simp

theorem foldSrv_up (e : String) (servers : List SrvData) :
    ∀ acc : Nat × Nat × Option Policy,
      (servers.foldl (scanServer e) acc).1
        = acc.1 + (servers.map (fun s => (contribution e s).1)).sum := by
  induction servers with
  | nil => intro acc; simp
  | cons s tl ih =>
    intro acc
    simp only [List.foldl_cons, List.map_cons, List.sum_cons]
    rw [ih, scanServer_up]
    omega

theorem foldSrv_down (e : String) (servers : List SrvData) :
    ∀ acc : Nat × Nat × Option Policy,
      (servers.foldl (scanServer e) acc).2.1
        = acc.2.1 + (servers.map (fun s => (contribution e s).2)).sum := by
  induction servers with
  | nil => intro acc; simp
  | cons s tl ih =>
    intro acc
    simp only [List.foldl_cons, List.map_cons, List.sum_cons]
    rw [ih, scanServer_down]
    omega

theorem foldSrv_policy (e : String) (servers : List SrvData) :
    ∀ acc : Nat × Nat × Option Policy,
      (servers.foldl (scanServer e) acc).2.2.isSome
        = (acc.2.2.isSome || servers.any (foundOn e)) := by
  induction servers with
  | nil => intro acc; simp
  | cons s tl ih =>
    intro acc
    simp only [List.foldl_cons, List.any_cons]
    rw [ih, scanServer_policy, Bool.or_assoc]

theorem scanAll_up (e : String) (servers : List SrvData) :
    (scanAll e servers).1 = (servers.map (fun s => (contribution e s).1)).sum := by
  rw [scanAll, foldSrv_up]
  simp

theorem scanAll_down (e : String) (servers : List SrvData) :
    (scanAll e servers).2.1
      = (servers.map (fun s => (contribution e s).2)).sum := by
  rw [scanAll, foldSrv_down]
  simp

theorem scanAll_policy (e : String) (servers : List SrvData) :
    (scanAll e servers).2.2.isSome = servers.any (foundOn e) := by
  rw [scanAll, foldSrv_policy]
  rfl

theorem get_client_data_some_of_found (e : String) (servers : List SrvData)
    (h : servers.any (foundOn e) = true) :
    ∃ cd, get_client_data e servers = some cd ∧
      cd.traffic_up = (scanAll e servers).1 ∧
      cd.traffic_down = (scanAll e servers).2.1 := by
  have hpol : (scanAll e servers).2.2.isSome := by rw [scanAll_policy]; exact h
  obtain ⟨p, hp⟩ := Option.isSome_iff_exists.mp hpol
  have hemp : servers.isEmpty = false := by
    cases servers with
    | nil => cases h
    | cons a l => rfl
  unfold get_client_data
  rw [hemp]
  simp only [Bool.false_eq_true, if_false, hp]
  exact ⟨_, rfl, rfl, rfl⟩

theorem get_client_data_none_iff (e : String) (servers : List SrvData) :
    get_client_data e servers = none ↔ servers.any (foundOn e) = false := by
  constructor
  · intro h
    by_contra hany
    rw [Bool.not_eq_false] at hany
    obtain ⟨cd, hcd, -, -⟩ := get_client_data_some_of_found e servers hany
    rw [h] at hcd
    cases hcd
  · intro hany
    have hpol : (scanAll e servers).2.2 = none := by
      have hp := scanAll_policy e servers
      rw [hany] at hp
      exact Option.not_isSome_iff_eq_none.mp (by rw [hp]; simp)
    unfold get_client_data
    by_cases hemp : servers.isEmpty
    · rw [if_pos hemp]
    · rw [if_neg hemp]
      dsimp only
      rw [hpol]

/-! ## C3 -/

/-- C3: aggregation is additive and order-independent in the traffic
counters — for a user hosted with usage `(u1, d1)` on server A and
`(u2, d2)` on server B, `get_client_data` reports upload `u1 + u2` and
download `d1 + d2`, in either iteration order of the servers. -/
theorem get_client_data_additive_order_independent
    (e : String) (A B : SrvData) (u1 d1 u2 d2 : Nat)
    (hA : contribution e A = (u1, d1)) (hB : contribution e B = (u2, d2))
    (hfA : foundOn e A = true) (hfB : foundOn e B = true) :
    (∃ cd, get_client_data e [A, B] = some cd ∧
      cd.traffic_up = u1 + u2 ∧ cd.traffic_down = d1 + d2) ∧
    (∃ cd, get_client_data e [B, A] = some cd ∧
      cd.traffic_up = u1 + u2 ∧ cd.traffic_down = d1 + d2) := by
  have h1 : [A, B].any (foundOn e) = true := by simp [hfA]
  have h2 : [B, A].any (foundOn e) = true := by simp [hfB]
  obtain ⟨cd1, hcd1, hup1, hdn1⟩ := get_client_data_some_of_found e [A, B] h1
  obtain ⟨cd2, hcd2, hup2, hdn2⟩ := get_client_data_some_of_found e [B, A] h2
  refine ⟨⟨cd1, hcd1, ?_, ?_⟩, ⟨cd2, hcd2, ?_, ?_⟩⟩
  · rw [hup1, scanAll_up]; simp [hA, hB]
  · rw [hdn1, scanAll_down]; simp [hA, hB]
  · rw [hup2, scanAll_up]; simp [hA, hB, Nat.add_comm]
  · rw [hdn2, scanAll_down]; simp [hA, hB, Nat.add_comm]

/-! ## C7 -/

/-- C7: the derivation of the policy figures — a captured traffic quota
`≤ 0` makes both the reported total and remaining traffic the `-1`
unlimited sentinel; a positive quota makes remaining `max 0 (quota − used)`
where used is the aggregate upload + download; a captured device limit of
`0` maps to the `-1` sentinel; and the operation returns `none` exactly
when the user is found on zero servers. -/
theorem get_client_data_derivation (e : String) (servers : List SrvData) :
    (get_client_data e servers = none ↔ ∀ s ∈ servers, foundOn e s = false) ∧
    (∀ p cd, (scanAll e servers).2.2 = some p →
      get_client_data e servers = some cd →
      cd.max_devices = p.max_devices ∧
      (p.traffic_total ≤ 0 → cd.traffic_total = -1 ∧ cd.traffic_remaining = -1) ∧
      (0 < p.traffic_total →
        cd.traffic_remaining
          = max 0 (p.traffic_total
              - (((scanAll e servers).1 + (scanAll e servers).2.1 : Nat) : Int)))) ∧
    (∀ st ib, statFor e ib = some st → cfgLimitFor e ib = some 0 →
      (capturePolicy e st ib).max_devices = -1) := by
  refine ⟨?_, ?_, ?_⟩
  · rw [get_client_data_none_iff]
    rw [List.any_eq_false]
    constructor
    · intro h s hs
      have := h s hs
      simpa using this
    · intro h s hs
      simp [h s hs]
  · intro p cd hp hcd
    have hemp : servers.isEmpty = false := by
      cases hs : servers with
      | nil => rw [hs] at hp; simp [scanAll] at hp
      | cons a l => rfl
    unfold get_client_data at hcd
    rw [hemp] at hcd
    simp only [Bool.false_eq_true, if_false] at hcd
    rw [hp] at hcd
    dsimp only at hcd
    injection hcd with hcd
    subst hcd
    refine ⟨rfl, ?_, ?_⟩
    · intro hq
      constructor <;> simp [hq]
    · intro hq
      have hq' : ¬ p.traffic_total ≤ 0 := by omega
      simp [hq']
  · intro st ib h1 h2
    unfold capturePolicy
    rw [h2]
    simp

/-! ## Fixtures and witnesses for C3 and C7 -/

/-- A concrete inbound hosting user `"7"` with usage `(10, 20)`, quota
`100`, device limit `3`. -/
def wInboundA : InboundCfg :=
  ⟨1, [⟨"7", true, "cid", 0, "", 3, "csub", 0, none⟩], [⟨"7", 10, 20, 100, 0⟩]⟩

/-- A concrete server hosting `wInboundA`. -/
def wSrvA : SrvData := ⟨"A", true, some [wInboundA]⟩

/-- A concrete inbound hosting user `"7"` with usage `(1, 2)` and no config
entry. -/
def wInboundB : InboundCfg := ⟨1, [], [⟨"7", 1, 2, 100, 0⟩]⟩

/-- A concrete server hosting `wInboundB`. -/
def wSrvB : SrvData := ⟨"B", true, some [wInboundB]⟩

/-- A concrete inbound whose config for user `"9"` has `limit_ip = 0`. -/
def wInbound0 : InboundCfg :=
  ⟨2, [⟨"9", true, "x", 0, "", 0, "xs", 0, none⟩], [⟨"9", 0, 0, 50, 5⟩]⟩

/-- Witness for C3: the concrete two-server aggregation in both orders. -/
theorem get_client_data_additive_order_independent_witness :
    (∃ cd, get_client_data "7" [wSrvA, wSrvB] = some cd ∧
      cd.traffic_up = 10 + 1 ∧ cd.traffic_down = 20 + 2) ∧
    (∃ cd, get_client_data "7" [wSrvB, wSrvA] = some cd ∧
      cd.traffic_up = 10 + 1 ∧ cd.traffic_down = 20 + 2) :=
  get_client_data_additive_order_independent "7" wSrvA wSrvB 10 20 1 2
    (by decide) (by decide) (by decide) (by decide)

/-- Witness for C7: the concrete derivation facts at the two-server run. -/
theorem get_client_data_derivation_witness :
    (∃ cd, get_client_data "7" [wSrvA, wSrvB] = some cd ∧
      cd.max_devices = 3 ∧
      cd.traffic_remaining
        = max 0 ((100 : Int)
            - (((scanAll "7" [wSrvA, wSrvB]).1
                + (scanAll "7" [wSrvA, wSrvB]).2.1 : Nat) : Int))) ∧
    (capturePolicy "9" ⟨"9", 0, 0, 50, 5⟩ wInbound0).max_devices = -1 := by
  have h := get_client_data_derivation "7" [wSrvA, wSrvB]
  have hp : (scanAll "7" [wSrvA, wSrvB]).2.2 = some ⟨3, 100, -1⟩ := by decide
  have hcd : get_client_data "7" [wSrvA, wSrvB]
      = some ⟨3, 100, 67, 33, 11, 22, -1⟩ := by decide
  have h2 := h.2.1 ⟨3, 100, -1⟩ ⟨3, 100, 67, 33, 11, 22, -1⟩ hp hcd
  refine ⟨⟨_, hcd, h2.1, h2.2.2 (by decide)⟩, ?_⟩
  exact (get_client_data_derivation "9" [wSrvA, wSrvB]).2.2 ⟨"9", 0, 0, 50, 5⟩
    wInbound0 (by decide) (by decide)

/-! ## Fan-out lemmas (C2, C5) -/

theorem fanout_first_some_pos (step : SrvOp → Bool) (srvs : List SrvOp)
    (fid : Nat) (h : (fanout step srvs).2 = some fid) :
    0 < (fanout step srvs).1 := by
  have aux : ∀ (l : List SrvOp) (acc : Nat × Option Nat),
      (acc.2 ≠ none → 0 < acc.1) →
      ((l.foldl (fun acc s =>
          if step s then (acc.1 + 1, pyFirst acc.2 s.serverId) else acc) acc).2 ≠ none →
        0 < (l.foldl (fun acc s =>
          if step s then (acc.1 + 1, pyFirst acc.2 s.serverId) else acc) acc).1) := by
    intro l
    induction l with
    | nil => intro acc hacc; exact hacc
    | cons s tl ih =>
      intro acc hacc
      simp only [List.foldl_cons]
      by_cases hstep : step s
      · rw [if_pos hstep]
        exact ih _ (fun _ => by omega)
      · rw [if_neg hstep]
        exact ih _ hacc
  have haux := aux srvs (0, none) (fun hc => absurd rfl hc)
  refine haux ?_
  intro hcontra
  have h' : (srvs.foldl (fun acc s =>
      if step s then (acc.1 + 1, pyFirst acc.2 s.serverId) else acc) (0, none)).2
      = some fid := h
  rw [hcontra] at h'
  cases h'

theorem dbGetUser_upsertUser (db : UserDb) (tg sid : Nat) (vid : String) :
    ∃ row, dbGetUser (upsertUser db tg sid vid) tg = some row ∧
      row.tg_id = tg ∧ row.server_id = some sid ∧ row.vpn_id = vid := by
  unfold upsertUser
  cases hget : dbGetUser db tg with
  | some u0 =>
    dsimp only
    rw [dbGetUser_map_update db tg
      (fun u => { u with server_id := some sid, vpn_id := vid }) (fun _ => rfl), hget]
    refine ⟨_, rfl, ?_, rfl, rfl⟩
    have := List.find?_some hget
    simpa using this
  | none =>
    dsimp only
    rw [show dbGetUser (db ++ [⟨tg, some sid, vid⟩]) tg
        = ((db.find? (fun u => u.tg_id = tg)).or
            (([⟨tg, some sid, vid⟩] : UserDb).find? (fun u => u.tg_id = tg)))
      from List.find?_append]
    rw [show db.find? (fun u => u.tg_id = tg) = none from hget]
    refine ⟨⟨tg, some sid, vid⟩, ?_, rfl, rfl, rfl⟩
    simp

/-! ## C2 -/

/-- A concrete fan-out oracle: connected, entry absent, first inbound
resolves, and the creation call is accepted. -/
def wCreateOp : SrvOp := ⟨5, true, none, some 1, true, true, true⟩

/-- The entry the first successful server holds after the creation. -/
def wCreatedClient : Client := ⟨"7", true, "real", 0, "", 0, "realsub", 0, none⟩

/-- C2 counterexample: a run in which one server accepts the creation
(`fanout` counts one success) yet `create_client` returns absent, because
the post-create re-query on that server fails — so "fails only when zero
servers accept the creation" is false as stated. -/
theorem create_client_counterexample :
    (fanout createStep [wCreateOp]).1 = 1 ∧
    (create_client [wCreateOp] (fun _ => none) [] 7).1 = none := by
  constructor <;> rfl

/-- C2 (amended): `create_client` returns absent when zero servers accept
the creation; and whenever the fan-out recorded a first successful server
AND the post-create re-query on it returns the created entry, the
operation succeeds, upserting the user row with that server as primary
assignment and the identifier that server actually assigned. -/
theorem create_client_amended (srvs : List SrvOp) (re : Nat → Option Client)
    (db : UserDb) (tg : Nat) :
    ((fanout createStep srvs).1 = 0 → create_client srvs re db tg = (none, db)) ∧
    (∀ fid c, (fanout createStep srvs).2 = some fid → re fid = some c →
      ∃ row, (create_client srvs re db tg).1 = some row ∧
        row.tg_id = tg ∧ row.server_id = some fid ∧ row.vpn_id = c.sub_id) := by
  constructor
  · intro h0
    unfold create_client
    dsimp only
    rw [h0]
    rfl
  · intro fid c hfid hre
    have hpos : 0 < (fanout createStep srvs).1 :=
      fanout_first_some_pos createStep srvs fid hfid
    unfold create_client
    dsimp only
    rw [if_pos hpos, hfid]
    dsimp only
    rw [hre]
    dsimp only
    exact dbGetUser_upsertUser db tg fid c.sub_id

/-- Witness for the amended C2: the concrete accepting run with a
successful re-query persists server 5 and the re-resolved identifier. -/
theorem create_client_amended_witness :
    ∃ row, (create_client [wCreateOp] (fun _ => some wCreatedClient) [] 7).1
        = some row ∧
      row.tg_id = 7 ∧ row.server_id = some 5 ∧ row.vpn_id = "realsub" :=
  (create_client_amended [wCreateOp] (fun _ => some wCreatedClient) [] 7).2 5
    wCreatedClient (by decide) rfl

/-! ## C5 -/

/-- C5: when at least one server succeeds in the delete fan-out,
`delete_client` reports success, clears the user's primary server
assignment and replaces the stored subscription identifier with the freshly
generated one, which differs from the identifier held before; when zero
servers succeed it reports failure and leaves the user table unchanged. -/
theorem delete_client_spec (srvs : List SrvOp) (db : UserDb) (tg : Nat)
    (newId : String) (oldRow : DbUser)
    (hold : dbGetUser db tg = some oldRow) (hfresh : newId ≠ oldRow.vpn_id) :
    (0 < (fanout deleteStep srvs).1 →
      (delete_client srvs db tg newId).1 = true ∧
      ∃ row, dbGetUser (delete_client srvs db tg newId).2 tg = some row ∧
        row.server_id = none ∧ row.vpn_id = newId ∧
        row.vpn_id ≠ oldRow.vpn_id) ∧
    ((fanout deleteStep srvs).1 = 0 →
      (delete_client srvs db tg newId).1 = false ∧
      (delete_client srvs db tg newId).2 = db) := by
  constructor
  · intro hpos
    unfold delete_client
    dsimp only
    rw [if_pos hpos]
    refine ⟨rfl, ?_⟩
    rw [dbGetUser_map_update db tg
      (fun u => { u with server_id := none, vpn_id := newId }) (fun _ => rfl), hold]
    exact ⟨_, rfl, rfl, rfl, hfresh⟩
  · intro h0
    unfold delete_client
    dsimp only
    rw [h0]
    exact ⟨rfl, rfl⟩

/-- A concrete delete fan-out oracle: connected, entry already absent —
counted as an already-satisfied success. -/
def wDeleteOp : SrvOp := ⟨1, true, none, some 1, true, true, true⟩

/-- Witness for C5: the concrete one-success delete run. -/
theorem delete_client_spec_witness :
    (delete_client [wDeleteOp] [⟨7, some 1, "old"⟩] 7 "fresh").1 = true ∧
    ∃ row, dbGetUser (delete_client [wDeleteOp] [⟨7, some 1, "old"⟩] 7 "fresh").2 7
        = some row ∧
      row.server_id = none ∧ row.vpn_id = "fresh" ∧
      row.vpn_id ≠ (⟨7, some 1, "old"⟩ : DbUser).vpn_id :=
  (delete_client_spec [wDeleteOp] [⟨7, some 1, "old"⟩] 7 "fresh" ⟨7, some 1, "old"⟩
    (by decide) (by decide)).1 (by decide)

/-! ## C8 -/

/-- C8: `activate_promocode` marks the code activated before provisioning
runs (the activation flag is `true` at the moment provisioning is
attempted); on an already-activated code it fails without granting and
without changing the activation state; when provisioning fails after
activation, the activation is rolled back to unactivated before failure is
returned. -/
theorem activate_promocode_spec (st : PromoState) (ok : Bool) :
    (st.activated = true →
      activate_promocode st ok = ⟨false, st, false, false, none⟩) ∧
    (st.activated = false →
      (activate_promocode st ok).provisionAttempted = true ∧
      (activate_promocode st ok).activatedAtProvision = some true ∧
      (ok = false → (activate_promocode st ok).result = false ∧
        (activate_promocode st ok).granted = false ∧
        (activate_promocode st ok).final.activated = false) ∧
      (ok = true → (activate_promocode st ok).result = true ∧
        (activate_promocode st ok).granted = true ∧
        (activate_promocode st ok).final.activated = true)) := by
  cases st with
  | mk a =>
    cases a <;> cases ok <;>
      simp [activate_promocode, set_activated, set_deactivated]

/-- Witness for C8: concrete already-activated, rollback and success runs. -/
theorem activate_promocode_spec_witness :
    activate_promocode ⟨true⟩ true = ⟨false, ⟨true⟩, false, false, none⟩ ∧
    (activate_promocode ⟨false⟩ false).final.activated = false ∧
    (activate_promocode ⟨false⟩ true).result = true := by
  refine ⟨(activate_promocode_spec ⟨true⟩ true).1 rfl, ?_, ?_⟩
  · exact (((activate_promocode_spec ⟨false⟩ false).2 rfl).2.2.1 rfl).2.2
  · exact (((activate_promocode_spec ⟨false⟩ true).2 rfl).2.2.2 rfl).1

/-! ## C10 -/

theorem update_payload_func_ids (vpnId : String) (now : Int)
    (kw : UpdateKwargs) (c : Client) :
    (update_payload_func vpnId now kw c).id = vpnId ∧
    (update_payload_func vpnId now kw c).sub_id = vpnId :=
  ⟨rfl, rfl⟩

/-- C10: every entry pushed during an `update_client` fan-out — whether an
update of an existing entry or a creation on a server missing it — carries
the user's stored subscription identifier in both its internal `id` and
external `sub_id` fields, whatever field changes were requested. -/
theorem update_client_forces_ids (vpnId : String) (now : Int)
    (kw : UpdateKwargs) (tg : Nat) (srvs : List SrvOp) :
    ∀ op ∈ update_client_pushes vpnId now kw tg srvs,
      op.payload.id = vpnId ∧ op.payload.sub_id = vpnId := by
  intro op hop
  rw [update_client_pushes, List.mem_flatMap] at hop
  obtain ⟨s, hs, hopin⟩ := hop
  unfold updateStepPushes at hopin
  by_cases hc : s.conn
  · rw [if_pos hc] at hopin
    cases hfound : s.found with
    | some c =>
      rw [hfound] at hopin
      simp only [List.mem_singleton] at hopin
      subst hopin
      exact update_payload_func_ids vpnId now kw c
    | none =>
      rw [hfound] at hopin
      cases hib : s.inboundId with
      | some ib =>
        rw [hib] at hopin
        simp only [List.mem_singleton] at hopin
        subst hopin
        exact ⟨rfl, rfl⟩
      | none =>
        rw [hib] at hopin
        cases hopin
  · rw [if_neg hc] at hopin
    cases hopin

/-- A concrete existing entry subjected to a witness update. -/
def wClientOld : Client := ⟨"7", true, "oldid", 0, "", 0, "oldsub", 0, some 1⟩

/-- Concrete update keyword arguments. -/
def wKwargs : UpdateKwargs := ⟨some 2, some 3, false, some true⟩

/-- A concrete update fan-out oracle whose server holds `wClientOld`. -/
def wUpdateOp : SrvOp := ⟨1, true, some wClientOld, some 1, true, true, true⟩

/-- The entry that run pushes. -/
def wPushedOp : PushedOp :=
  .pushUpdate "oldsub" (update_payload_func "vid" 1000 wKwargs wClientOld)

/-- Witness for C10: the concrete pushed entry carries the forced ids. -/
theorem update_client_forces_ids_witness :
    wPushedOp ∈ update_client_pushes "vid" 1000 wKwargs 7 [wUpdateOp] ∧
    wPushedOp.payload.id = "vid" ∧ wPushedOp.payload.sub_id = "vid" := by
  have hmem : wPushedOp ∈ update_client_pushes "vid" 1000 wKwargs 7 [wUpdateOp] := by
    decide
  exact ⟨hmem,
    update_client_forces_ids "vid" 1000 wKwargs 7 [wUpdateOp] wPushedOp hmem⟩

/-! ## Splitting lemmas (C6) -/

theorem splitChar_go_no_sep (c : Char) (a : List Char) :
    ∀ (rest acc : List Char), (∀ x ∈ a, x ≠ c) →
      splitChar.go c (a ++ rest) acc = splitChar.go c rest (a.reverse ++ acc) := by
  induction a with
  | nil => intro rest acc _; simp
  | cons x xs ih =>
    intro rest acc h
    have hx : x ≠ c := h x (List.mem_cons_self _ _)
    rw [List.cons_append,
      show splitChar.go c (x :: (xs ++ rest)) acc
        = if x = c then acc.reverse :: splitChar.go c (xs ++ rest) []
          else splitChar.go c (xs ++ rest) (x :: acc) from rfl,
      if_neg hx, ih rest (x :: acc) (fun y hy => h y (List.mem_cons_of_mem _ hy))]
    simp

theorem splitChar_go_all_no_sep (c : Char) (a : List Char) :
    ∀ acc : List Char, (∀ x ∈ a, x ≠ c) →
      splitChar.go c a acc = [acc.reverse ++ a] := by
  induction a with
  | nil => intro acc _; simp [splitChar.go]
  | cons x xs ih =>
    intro acc h
    have hx : x ≠ c := h x (List.mem_cons_self _ _)
    rw [show splitChar.go c (x :: xs) acc
        = if x = c then acc.reverse :: splitChar.go c xs []
          else splitChar.go c xs (x :: acc) from rfl,
      if_neg hx, ih (x :: acc) (fun y hy => h y (List.mem_cons_of_mem _ hy))]
    simp

theorem splitChar_two_lines (l1 l2 : String)
    (h1 : ('\n' : Char) ∉ l1.data) (h2 : ('\n' : Char) ∉ l2.data) :
    splitChar '\n' (l1 ++ "\n" ++ l2) = [l1, l2] := by
  unfold splitChar
  have hdata : (l1 ++ "\n" ++ l2).data = l1.data ++ ('\n' :: l2.data) := by
    simp [String.data_append]
  rw [hdata,
    splitChar_go_no_sep '\n' l1.data ('\n' :: l2.data) []
      (fun x hx he => h1 (he ▸ hx))]
  have hgo : splitChar.go '\n' ('\n' :: l2.data) (l1.data.reverse ++ [])
      = (l1.data.reverse ++ []).reverse :: splitChar.go '\n' l2.data [] := by
    rw [splitChar.go]
    simp
  rw [hgo, splitChar_go_all_no_sep '\n' l2.data [] (fun x hx he => h2 (he ▸ hx))]
  simp

theorem serverLines_two_lines (name l1 l2 : String)
    (h1 : ('\n' : Char) ∉ l1.data) (h2 : ('\n' : Char) ∉ l2.data)
    (hs1 : pyStrip l1 ≠ "") (hs2 : pyStrip l2 ≠ "") :
    serverLines name (l1 ++ "\n" ++ l2)
      = [processLine name (pyStrip l1), processLine name (pyStrip l2)] := by
  unfold serverLines
  rw [splitChar_two_lines l1 l2 h1 h2]
  simp [hs1, hs2]

theorem processLine_tagged (name line : String) :
    ∃ b, processLine name line = b ++ "#" ++ name := by
  unfold processLine
  split
  · exact ⟨_, rfl⟩
  · exact ⟨_, rfl⟩

/-! ## C6 -/

/-- C6: with three available servers of which one answers HTTP 500, one
answers 200 with an empty body, and one answers 200 with a payload of two
non-empty (non-`vmess`) lines, the aggregated response is HTTP 200 and its
decoded body holds exactly the two lines, each re-tagged with the surviving
server's name as the trailing fragment; and in general the aggregation
answers HTTP 500 exactly when zero servers yielded any usable line. -/
theorem aggregation_tolerates_partial_failure (n1 n2 n3 b1 l1 l2 : String)
    (h1 : ('\n' : Char) ∉ l1.data) (h2 : ('\n' : Char) ∉ l2.data)
    (hs1 : pyStrip l1 ≠ "") (hs2 : pyStrip l2 ≠ "")
    (hv1 : pyStartsWith "vmess://" (pyStrip l1) = false)
    (hv2 : pyStartsWith "vmess://" (pyStrip l2) = false) :
    (aggregateResults [(n1, .resp 500 b1), (n2, .resp 200 ""),
        (n3, .resp 200 (l1 ++ "\n" ++ l2))]).status = 200 ∧
    (aggregateResults [(n1, .resp 500 b1), (n2, .resp 200 ""),
        (n3, .resp 200 (l1 ++ "\n" ++ l2))]).lines
      = [processLine n3 (pyStrip l1), processLine n3 (pyStrip l2)] ∧
    (∃ b, processLine n3 (pyStrip l1) = b ++ "#" ++ n3) ∧
    (∃ b, processLine n3 (pyStrip l2) = b ++ "#" ++ n3) ∧
    (∀ rs, (aggregateResults rs).status = 500 ↔ collectConfigs rs = []) := by
  have hbody : l1 ++ "\n" ++ l2 ≠ "" := by
    intro he
    have hd := congrArg String.data he
    simp [String.data_append] at hd
  have hcol : collectConfigs [(n1, .resp 500 b1), (n2, .resp 200 ""),
      (n3, .resp 200 (l1 ++ "\n" ++ l2))]
      = [processLine n3 (pyStrip l1), processLine n3 (pyStrip l2)] := by
    unfold collectConfigs
    simp only [List.foldl_cons, List.foldl_nil]
    have e1 : collectStep [] (n1, .resp 500 b1) = [] := by
      simp [collectStep]
    have e2 : collectStep [] (n2, .resp 200 "") = [] := by
      simp [collectStep]
    have e3 : collectStep [] (n3, .resp 200 (l1 ++ "\n" ++ l2))
        = serverLines n3 (l1 ++ "\n" ++ l2) := by
      simp [collectStep, hbody]
    rw [e1, e2, e3]
    exact serverLines_two_lines n3 l1 l2 h1 h2 hs1 hs2
  have hiff : ∀ rs, (aggregateResults rs).status = 500 ↔ collectConfigs rs = [] := by
    intro rs
    unfold aggregateResults
    by_cases hc : collectConfigs rs = []
    · rw [if_pos hc]
      simp [hc]
    · rw [if_neg hc]
      simp [hc]
  refine ⟨?_, ?_, processLine_tagged n3 (pyStrip l1), processLine_tagged n3 (pyStrip l2), hiff⟩
  · unfold aggregateResults
    rw [hcol]
    rw [if_neg (by simp)]
  · unfold aggregateResults
    rw [hcol]
    rw [if_neg (by simp)]

/-- Witness for C6: a concrete three-server aggregation with a `vless` line
and a plain line surviving from the third server. -/
theorem aggregation_tolerates_partial_failure_witness :
    (aggregateResults [("A", .resp 500 "err"), ("B", .resp 200 ""),
        ("C", .resp 200 ("vless://u@h:443?security=tls#x" ++ "\n" ++ "plainline"))]).status
      = 200 ∧
    (aggregateResults [("A", .resp 500 "err"), ("B", .resp 200 ""),
        ("C", .resp 200 ("vless://u@h:443?security=tls#x" ++ "\n" ++ "plainline"))]).lines
      = [processLine "C" (pyStrip "vless://u@h:443?security=tls#x"),
         processLine "C" (pyStrip "plainline")] ∧
    (∃ b, processLine "C" (pyStrip "vless://u@h:443?security=tls#x") = b ++ "#" ++ "C") ∧
    (∃ b, processLine "C" (pyStrip "plainline") = b ++ "#" ++ "C") ∧
    (∀ rs, (aggregateResults rs).status = 500 ↔ collectConfigs rs = []) :=
  aggregation_tolerates_partial_failure "A" "B" "C" "err"
    "vless://u@h:443?security=tls#x" "plainline"
    (by decide) (by decide) (by decide) (by decide) (by decide) (by decide)

/-! ## URL lemmas (C9) -/

theorem takeWhile_append_stop (p : Char → Bool) (a : List Char) (y : Char)
    (rest : List Char) (ha : ∀ x ∈ a, p x = true) (hy : p y = false) :
    (a ++ y :: rest).takeWhile p = a := by
  induction a with
  | nil => simp [List.takeWhile_cons, hy]
  | cons x xs ih =>
    have hx := ha x (List.mem_cons_self _ _)
    simp only [List.cons_append, List.takeWhile_cons, hx, if_true]
    rw [ih (fun z hz => ha z (List.mem_cons_of_mem _ hz))]

theorem urlsplitModel_parses (sch hn pt pth q fr : String)
    (hsch : ∀ c ∈ sch.data, c ≠ ':')
    (hhn : ∀ c ∈ hn.data, c ≠ ':' ∧ c ≠ '/' ∧ c ≠ '?' ∧ c ≠ '#')
    (hpt : ∀ c ∈ pt.data, c ≠ '/' ∧ c ≠ '?' ∧ c ≠ '#') :
    (urlsplitModel
        (sch ++ "://" ++ hn ++ ":" ++ pt ++ "/" ++ pth ++ "?" ++ q ++ "#" ++ fr)).scheme
      = sch ∧
    (urlsplitModel
        (sch ++ "://" ++ hn ++ ":" ++ pt ++ "/" ++ pth ++ "?" ++ q ++ "#" ++ fr)).hostname
      = pyLower hn := by
  have hform : (sch ++ "://" ++ hn ++ ":" ++ pt ++ "/" ++ pth ++ "?" ++ q ++ "#" ++ fr).data
      = sch.data ++ ':' :: ('/' :: '/' ::
          (hn.data ++ ':' :: (pt.data ++ '/' ::
            (pth.data ++ '?' :: (q.data ++ '#' :: fr.data))))) := by
    simp [String.data_append]
  have hsch' : ∀ x ∈ sch.data, (fun c => decide (c ≠ ':')) x = true := by
    intro x hx
    simp [hsch x hx]
  unfold urlsplitModel
  rw [hform, takeWhile_append_stop _ sch.data ':' _ hsch' (by decide)]
  dsimp only
  rw [List.drop_left]
  dsimp only
  rw [if_pos ⟨rfl, rfl, rfl⟩]
  dsimp only
  have hre : hn.data ++ ':' :: (pt.data ++ '/' ::
        (pth.data ++ '?' :: (q.data ++ '#' :: fr.data)))
      = (hn.data ++ ':' :: pt.data) ++ '/' ::
          (pth.data ++ '?' :: (q.data ++ '#' :: fr.data)) := by
    simp
  rw [hre]
  have hnet : ∀ x ∈ hn.data ++ ':' :: pt.data,
      (fun c => decide (c ≠ '/' ∧ c ≠ '?' ∧ c ≠ '#')) x = true := by
    intro x hx
    rcases List.mem_append.mp hx with hx1 | hx2
    · have := hhn x hx1
      simp [this.2.1, this.2.2.1, this.2.2.2]
    · rcases List.mem_cons.mp hx2 with rfl | hx3
      · decide
      · have := hpt x hx3
        simp [this.1, this.2.1, this.2.2]
  rw [takeWhile_append_stop _ (hn.data ++ ':' :: pt.data) '/' _ hnet (by decide)]
  have hhn' : ∀ x ∈ hn.data, (fun c => decide (c ≠ ':')) x = true := by
    intro x hx
    simp [(hhn x hx).1]
  rw [takeWhile_append_stop _ hn.data ':' pt.data hhn' (by decide)]
  exact ⟨rfl, rfl⟩

/-! ## C9 -/

/-- C9: the per-server subscription fetch URL is rebuilt from the server's
stored host with the network location forced to `hostname:2096` (hostname
lowercased, as `urlsplit().hostname` yields) and the path forced to
`/sub/{vpn_id}` — any port, path, query, or fragment present in the stored
host value is discarded: the result depends only on the scheme and the
hostname. -/
theorem buildSubUrl_forces_netloc_and_path (sch hn pt pth q fr vpnId : String)
    (hsch : ∀ c ∈ sch.data, c ≠ ':')
    (hhn : ∀ c ∈ hn.data, c ≠ ':' ∧ c ≠ '/' ∧ c ≠ '?' ∧ c ≠ '#')
    (hpt : ∀ c ∈ pt.data, c ≠ '/' ∧ c ≠ '?' ∧ c ≠ '#') :
    buildSubUrl (sch ++ "://" ++ hn ++ ":" ++ pt ++ "/" ++ pth ++ "?" ++ q ++ "#" ++ fr)
        vpnId
      = sch ++ "://" ++ (pyLower hn ++ ":2096") ++ ("/sub/" ++ vpnId) := by
  obtain ⟨h1, h2⟩ := urlsplitModel_parses sch hn pt pth q fr hsch hhn hpt
  unfold buildSubUrl
  dsimp only
  rw [h1, h2]

/-- Witness for C9: a concrete host carrying a port, path, query and
fragment, all discarded in the rebuilt URL. -/
theorem buildSubUrl_forces_netloc_and_path_witness :
    buildSubUrl ("https" ++ "://" ++ "MyHost" ++ ":" ++ "8443" ++ "/" ++ "panel"
        ++ "?" ++ "x=1" ++ "#" ++ "f") "abc"
      = "https" ++ "://" ++ (pyLower "MyHost" ++ ":2096") ++ ("/sub/" ++ "abc") :=
  buildSubUrl_forces_netloc_and_path "https" "MyHost" "8443" "panel" "x=1" "f" "abc"
    (by decide) (by decide) (by decide)

end XUIShop
